import Mathlib

/-
Verification of the polymorphic identifier type of the
mongodb-base-service repository (src/id.rs), as a shallow embedding.
The Rust enum ID with variants ObjectId, String and I64 is modelled
together with the external value types it maps onto: the document
binary value type (Bson), the generic structured output of the serde
Serialize hook, and the query-language scalar protocol values.
Rust functions that can unwind are modelled with an explicit result
type that separates a normal return from a process-level abort.
-/

namespace MongoId

/-- Value of a single hexadecimal digit character, lower or upper case;
none for a character that is not a hex digit. -/
def hexDigitVal? (c : Char) : Option Nat :=
  if '0' ≤ c ∧ c ≤ '9' then some (c.toNat - '0'.toNat)
  else if 'a' ≤ c ∧ c ≤ 'f' then some (c.toNat - 'a'.toNat + 10)
  else if 'A' ≤ c ∧ c ≤ 'F' then some (c.toNat - 'A'.toNat + 10)
  else none

/-- Lower-case hexadecimal digit character for a value below 16. -/
def hexDigitChar (n : Nat) : Char :=
  if n < 10 then Char.ofNat ('0'.toNat + n) else Char.ofNat ('a'.toNat + (n - 10))

/-- Decode a character list as consecutive pairs of hex digits, each pair
one byte; fails on a non-digit or an odd number of characters.  This is
the byte-level content of hex decode as used by bson ObjectId parsing. -/
def hexPairsToBytes : List Char → Option (List Nat)
  | [] => some []
  | c1 :: c2 :: rest =>
    match hexDigitVal? c1, hexDigitVal? c2, hexPairsToBytes rest with
    | some h, some l, some bs => some ((16 * h + l) :: bs)
    | _, _, _ => none
  | [_] => none

/-- The 12-byte binary object identifier of the document database,
modelled by its byte sequence. -/
structure ObjectId where
  bytes : List Nat
deriving DecidableEq, Repr

/-- Well-formedness of an ObjectId value: exactly 12 bytes, each below 256. -/
def ObjectId.wf (o : ObjectId) : Prop :=
  o.bytes.length = 12 ∧ ∀ b ∈ o.bytes, b < 256

instance (o : ObjectId) : Decidable o.wf := by
  unfold ObjectId.wf; infer_instance

/-- Embedding of bson ObjectId::with_string: parse a 24-hex-character
string into a 12-byte object identifier, otherwise fail. -/
def ObjectId.with_string (s : String) : Option ObjectId :=
  if s.length = 24 then (hexPairsToBytes s.toList).map ObjectId.mk else none

/-- Embedding of bson ObjectId::to_hex: render the 12 bytes as 24
lower-case hexadecimal characters. -/
def ObjectId.to_hex (o : ObjectId) : String :=
  String.mk ((o.bytes.map (fun b => [hexDigitChar (b / 16), hexDigitChar (b % 16)])).flatten)

/-- The document-binary value type (external bson::Bson), restricted to
its type tags: the three tags the identifier type maps onto, plus
representative unsupported tags (floating point, boolean, null, array,
document). -/
inductive Bson where
  | String (s : String)
  | ObjectId (o : ObjectId)
  | I64 (i : Int)
  | Double
  | Boolean (b : Bool)
  | Null
  | Array (elems : List Bson)
  | Document (pairs : List (String × Bson))

/-- The identifier type, Rust enum ID of src/id.rs, with its three
variants: binary object id, string, signed 64-bit integer. -/
inductive ID where
  | ObjectId (o : ObjectId)
  | String (s : String)
  | I64 (i : Int)
deriving DecidableEq, Repr

/-- Result of a Rust computation that either returns normally or
unwinds through a panic with a message; used to embed the unwrap and
panic sites of the source faithfully. -/
inductive PanicOr (α : Type) where
  | ok (a : α)
  | panicked (msg : String)
deriving DecidableEq, Repr

/-- Embedding of ID::with_bson (src/id.rs lines 162-169): map the three
supported binary tags to the matching variant; any other tag hits the
panic arm with the message Invalid id type used. -/
def ID.with_bson : Bson → PanicOr ID
  | Bson.String s => .ok (ID.String s)
  | Bson.ObjectId o => .ok (ID.ObjectId o)
  | Bson.I64 i => .ok (ID.I64 i)
  | _ => .panicked "Invalid id type used"

/-- Embedding of ID::to_bson (src/id.rs lines 171-177): each variant to
the binary value with the matching tag. -/
def ID.to_bson : ID → Bson
  | ID.ObjectId o => Bson.ObjectId o
  | ID.String s => Bson.String s
  | ID.I64 i => Bson.I64 i

/-- Embedding of Rust str::starts_with for the marker strings used in
src/id.rs: character-list prefix test. -/
def strStartsWith (s p : String) : Bool :=
  p.toList.isPrefixOf s.toList

/-- Embedding of the byte slice v[5..] of src/id.rs: dropping the
5-character ASCII marker from the front of the string.  Inside the
branch where the string starts with the 5 one-byte characters of the
marker, byte index 5 and character index 5 coincide. -/
def strDropChars (s : String) (n : Nat) : String :=
  String.mk (s.toList.drop n)

/-- Embedding of IDVisitor::visit_str (src/id.rs lines 53-65): a string
starting with the marker has the marker stripped and the rest parsed as
an object id, falling back to the String variant holding the original
string on parse failure; without the marker the string becomes the
String variant verbatim.  The error side of the Result is never used. -/
def visit_str (v : String) : Except String ID :=
  if strStartsWith v "$oid:" then
    match ObjectId.with_string (strDropChars v 5) with
    | some oid => .ok (ID.ObjectId oid)
    | none => .ok (ID.String v)
  else
    .ok (ID.String v)

/-- Embedding of IDVisitor::visit_string (src/id.rs lines 67-79), the
owned-string twin of visit_str with identical logic. -/
def visit_string (v : String) : Except String ID :=
  if strStartsWith v "$oid:" then
    match ObjectId.with_string (strDropChars v 5) with
    | some oid => .ok (ID.ObjectId oid)
    | none => .ok (ID.String v)
  else
    .ok (ID.String v)

/-- Embedding of IDVisitor::visit_i64 (src/id.rs lines 81-86). -/
def visit_i64 (v : Int) : Except String ID :=
  .ok (ID.I64 v)

/-- Wrap-around reinterpretation of an unsigned 64-bit value as a
signed 64-bit value: the Rust cast v as i64 for v of type u64. -/
def i64_of_u64 (v : Nat) : Int :=
  if v < 2 ^ 63 then (v : Int) else (v : Int) - 2 ^ 64

/-- Embedding of IDVisitor::visit_u64 (src/id.rs lines 88-93): the
unsigned value is cast to i64 and wrapped in the I64 variant. -/
def visit_u64 (v : Nat) : Except String ID :=
  .ok (ID.I64 (i64_of_u64 v))

/-- Embedding of the From String impl (src/id.rs lines 111-115): every
string becomes the String variant directly. -/
def stringToID (s : String) : ID :=
  ID.String s

/-- Embedding of the From ID impl for String (src/id.rs lines 117-125):
object id to its hex form, string to itself, integer to decimal. -/
def idToString : ID → String
  | ID.ObjectId o => o.to_hex
  | ID.String s => s
  | ID.I64 i => toString i

/-- Alias for the builtin string type, needed where the constructor
named String of the ID type shadows it. -/
abbrev Str : Type := String

/-- Embedding of ID::to_string (src/id.rs lines 179-185): object id to
its hex form, string cloned, integer to decimal. -/
def ID.to_string : ID → Str
  | ID.ObjectId o => o.to_hex
  | ID.String s => s
  | ID.I64 i => toString i

/-- Output shape of the generic structured serializer: a map of
key-value entries, a bare string, or a bare 64-bit number, which is all
the Serialize impl of src/id.rs emits. -/
inductive SerValue where
  | map (entries : List (String × SerValue))
  | str (s : String)
  | int (i : Int)

/-- Embedding of the Serialize impl (src/id.rs lines 18-33): the
ObjectId variant becomes a single-entry map with key $oid and the hex
string as value, the String variant a bare string, the I64 variant a
bare i64 number. -/
def serialize : ID → SerValue
  | ID.ObjectId o => SerValue.map [("$oid", SerValue.str o.to_hex)]
  | ID.String s => SerValue.str s
  | ID.I64 i => SerValue.int i

/-- Wrap-around reinterpretation of a 64-bit value as a signed 32-bit
value: the Rust cast i as i32 for i of type i64. -/
def i32_of_i64 (i : Int) : Int :=
  (i + 2 ^ 31) % 2 ^ 32 - 2 ^ 31

/-- A scalar value of the query-language protocol (juniper), either a
plain string or a 32-bit-range integer. -/
inductive ScalarValue where
  | str (s : String)
  | int (i : Int)
deriving DecidableEq, Repr

/-- Embedding of the graphql_scalar resolve block (src/id.rs lines
224-230): the ObjectId variant becomes the plain string with the $oid:
marker followed by the hex form, the String variant a plain string, the
I64 variant the numeric scalar obtained by the i as i32 cast. -/
def resolve : ID → ScalarValue
  | ID.ObjectId o => ScalarValue.str ("$oid:" ++ o.to_hex)
  | ID.String s => ScalarValue.str s
  | ID.I64 i => ScalarValue.int (i32_of_i64 i)

/-- An input value of the query-language protocol: a scalar token, or
any other input kind (list, object, enum, null), which the decoder
rejects. -/
inductive InputValue where
  | scalar (s : ScalarValue)
  | other
deriving DecidableEq, Repr

/-- Embedding of the graphql_scalar from_input_value block (src/id.rs
lines 232-251): a string scalar goes through the same marker
disambiguation as visit_str, an integer scalar becomes the I64 variant,
every non-scalar input yields None. -/
def from_input_value : InputValue → Option ID
  | InputValue.scalar (ScalarValue.str s) =>
    if strStartsWith s "$oid:" then
      match ObjectId.with_string (strDropChars s 5) with
      | some oid => some (ID.ObjectId oid)
      | none => some (ID.String s)
    else
      some (ID.String s)
  | InputValue.scalar (ScalarValue.int i) => some (ID.I64 i)
  | InputValue.other => none

/-- Embedding of the From ID impl for ObjectId (src/id.rs lines
206-214): the ObjectId payload passes through; the String payload, and
the decimal rendering of the I64 payload, are parsed with
ObjectId::with_string and unwrapped, so a parse failure is a panic, not
a returned error. -/
def idToObjectId : ID → PanicOr ObjectId
  | ID.ObjectId o => .ok o
  | ID.String s =>
    match ObjectId.with_string s with
    | some o => .ok o
    | none => .panicked "called Result::unwrap on an Err value"
  | ID.I64 i =>
    match ObjectId.with_string (toString i) with
    | some o => .ok o
    | none => .panicked "called Result::unwrap on an Err value"

lemma hexDigitVal_hexDigitChar : ∀ n : Nat, n < 16 → hexDigitVal? (hexDigitChar n) = some n := by
  decide

lemma hexDigitChar_ne_dollar : ∀ n : Nat, n < 16 → ('$' == hexDigitChar n) = false := by
  decide

lemma toList_append (s t : String) : (s ++ t).toList = s.toList ++ t.toList := by
  simp [String.toList]

lemma strStartsWith_oid_append (h : String) :
    strStartsWith ("$oid:" ++ h) "$oid:" = true := by
  unfold strStartsWith
  rw [toList_append]
  rw [show "$oid:".toList = ['$', 'o', 'i', 'd', ':'] from rfl]
  simp [List.isPrefixOf]

lemma strDropChars_oid_append (h : String) : strDropChars ("$oid:" ++ h) 5 = h := by
  unfold strDropChars
  rw [toList_append]
  rw [show "$oid:".toList = ['$', 'o', 'i', 'd', ':'] from rfl]
  rfl

lemma flatten_hexPairs_length (bs : List Nat) :
    ((bs.map (fun b => [hexDigitChar (b / 16), hexDigitChar (b % 16)])).flatten).length
      = 2 * bs.length := by
  induction bs with
  | nil => rfl
  | cons b t ih => simp [List.map, List.flatten, ih]; omega

lemma hexPairsToBytes_pairs (bs : List Nat) (h : ∀ b ∈ bs, b < 256) :
    hexPairsToBytes ((bs.map (fun b => [hexDigitChar (b / 16), hexDigitChar (b % 16)])).flatten)
      = some bs := by
  induction bs with
  | nil => rfl
  | cons b t ih =>
    have hb : b < 256 := h b (by simp)
    have ht : ∀ x ∈ t, x < 256 := fun x hx => h x (by simp [hx])
    have h1 : hexDigitVal? (hexDigitChar (b / 16)) = some (b / 16) :=
      hexDigitVal_hexDigitChar _ (by omega)
    have h2 : hexDigitVal? (hexDigitChar (b % 16)) = some (b % 16) :=
      hexDigitVal_hexDigitChar _ (by omega)
    simp [List.map, List.flatten, hexPairsToBytes, h1, h2, ih ht]
    omega

lemma to_hex_length (o : ObjectId) (h : o.bytes.length = 12) : (o.to_hex).length = 24 := by
  show ((o.bytes.map (fun b => [hexDigitChar (b / 16), hexDigitChar (b % 16)])).flatten).length = 24
  rw [flatten_hexPairs_length, h]

lemma with_string_to_hex (o : ObjectId) (h : o.wf) :
    ObjectId.with_string o.to_hex = some o := by
  obtain ⟨hlen, hbytes⟩ := h
  unfold ObjectId.with_string
  rw [if_pos (to_hex_length o hlen)]
  rw [show (o.to_hex).toList = (o.bytes.map (fun b => [hexDigitChar (b / 16), hexDigitChar (b % 16)])).flatten from rfl]
  rw [hexPairsToBytes_pairs o.bytes hbytes]
  rfl

/-- C1: decoding the document-binary value produced by encoding any
identifier returns normally and yields the identifier back, for all
three variants: the binary round trip is lossless. -/
theorem c1_bson_round_trip (x : ID) :
    ID.with_bson (ID.to_bson x) = PanicOr.ok x := by
  cases x <;> rfl

/-- C2: the serde string visitor maps a marker string with a valid
24-hex remainder to the ObjectId variant, a marker string with an
invalid remainder to the String variant holding the original unstripped
string, and a string without the marker to the String variant verbatim;
it never returns an error, and the owned-string visitor agrees with the
borrowed-string one. -/
theorem c2_visit_str_disambiguation :
    (∀ h o, ObjectId.with_string h = some o →
      visit_str ("$oid:" ++ h) = Except.ok (ID.ObjectId o)) ∧
    (∀ h, ObjectId.with_string h = none →
      visit_str ("$oid:" ++ h) = Except.ok (ID.String ("$oid:" ++ h))) ∧
    (∀ s, strStartsWith s "$oid:" = false → visit_str s = Except.ok (ID.String s)) ∧
    (∀ s, ∃ x, visit_str s = Except.ok x) ∧
    (∀ s, visit_string s = visit_str s) := by
  refine ⟨?_, ?_, ?_, ?_, ?_⟩
  · intro h o hp
    simp [visit_str, strStartsWith_oid_append, strDropChars_oid_append, hp]
  · intro h hp
    simp [visit_str, strStartsWith_oid_append, strDropChars_oid_append, hp]
  · intro s hs
    simp [visit_str, hs]
  · intro s
    unfold visit_str
    split
    · cases ObjectId.with_string (strDropChars s 5) <;> simp
    · simp
  · intro s
    unfold visit_str visit_string
    rfl

/-- C2 witness: the three branches of the theorem at concrete inputs. -/
theorem c2_witness :
    visit_str ("$oid:" ++ "507f1f77bcf86cd799439011") =
      Except.ok (ID.ObjectId ⟨[0x50, 0x7f, 0x1f, 0x77, 0xbc, 0xf8, 0x6c, 0xd7, 0x99, 0x43, 0x90, 0x11]⟩) ∧
    visit_str ("$oid:" ++ "not-valid-hex") = Except.ok (ID.String ("$oid:" ++ "not-valid-hex")) ∧
    visit_str "hello" = Except.ok (ID.String "hello") :=
  ⟨c2_visit_str_disambiguation.1 _ _ (by decide),
   c2_visit_str_disambiguation.2.1 _ (by decide),
   c2_visit_str_disambiguation.2.2.1 _ (by decide)⟩

/-- C3 counterexample: on a Text payload that is not valid hex, the
conversion to ObjectId reaches the unwrap panic; it does not return
normally at all, so it cannot be returning a recoverable error. -/
theorem c3_counterexample :
    idToObjectId (ID.String "not-a-hex-object-id") =
      PanicOr.panicked "called Result::unwrap on an Err value" ∧
    ∀ o, idToObjectId (ID.String "not-a-hex-object-id") ≠ PanicOr.ok o := by
  have h1 : idToObjectId (ID.String "not-a-hex-object-id") =
      PanicOr.panicked "called Result::unwrap on an Err value" := by decide
  exact ⟨h1, fun o hc => by rw [h1] at hc; exact PanicOr.noConfusion hc⟩

/-- C3 amended: the conversion to ObjectId panics through unwrap, and
does not return a recoverable error, when the String payload or the
decimal rendering of the I64 payload fails to parse as a 24-hex object
identifier; an ObjectId payload passes through unchanged. -/
theorem c3_to_object_id (s : String) (i : Int) (o : ObjectId)
    (hs : ObjectId.with_string s = none)
    (hi : ObjectId.with_string (toString i) = none) :
    idToObjectId (ID.ObjectId o) = PanicOr.ok o ∧
    idToObjectId (ID.String s) = PanicOr.panicked "called Result::unwrap on an Err value" ∧
    idToObjectId (ID.I64 i) = PanicOr.panicked "called Result::unwrap on an Err value" := by
  refine ⟨rfl, ?_, ?_⟩
  · simp [idToObjectId, hs]
  · simp [idToObjectId, hi]

/-- C3 witness: the amended theorem at concrete inputs. -/
theorem c3_witness :
    ObjectId.with_string "zzz" = none ∧
    ObjectId.with_string (toString (7 : Int)) = none ∧
    (idToObjectId (ID.ObjectId ⟨[0, 1, 2, 3, 4, 5, 6, 7, 8, 9, 10, 11]⟩) =
        PanicOr.ok ⟨[0, 1, 2, 3, 4, 5, 6, 7, 8, 9, 10, 11]⟩ ∧
      idToObjectId (ID.String "zzz") = PanicOr.panicked "called Result::unwrap on an Err value" ∧
      idToObjectId (ID.I64 7) = PanicOr.panicked "called Result::unwrap on an Err value") :=
  ⟨by decide, by decide, c3_to_object_id "zzz" 7 _ (by decide) (by decide)⟩

/-- C4 counterexample: the document-binary decode applied to a null
value reaches the panic arm; it does not return at all, so it does not
propagate a decode error to the caller. -/
theorem c4_counterexample :
    ID.with_bson Bson.Null = PanicOr.panicked "Invalid id type used" ∧
    ∀ x, ID.with_bson Bson.Null ≠ PanicOr.ok x := by
  exact ⟨rfl, fun x hc => PanicOr.noConfusion hc⟩

/-- C4 amended: on every binary value whose tag is outside the
supported set, ID::with_bson panics with the message Invalid id type
used instead of returning; in particular it never silently coerces such
a value to any variant. -/
theorem c4_with_bson_unsupported_tag (b : Bson)
    (h1 : ∀ s, b ≠ Bson.String s) (h2 : ∀ o, b ≠ Bson.ObjectId o)
    (h3 : ∀ i, b ≠ Bson.I64 i) :
    ID.with_bson b = PanicOr.panicked "Invalid id type used" := by
  cases b with
  | String s => exact absurd rfl (h1 s)
  | ObjectId o => exact absurd rfl (h2 o)
  | I64 i => exact absurd rfl (h3 i)
  | Double => rfl
  | Boolean v => rfl
  | Null => rfl
  | Array l => rfl
  | Document l => rfl

/-- C4 witness: the amended theorem at the boolean tag. -/
theorem c4_witness :
    ID.with_bson (Bson.Boolean true) = PanicOr.panicked "Invalid id type used" :=
  c4_with_bson_unsupported_tag (Bson.Boolean true)
    (fun _ hc => Bson.noConfusion hc) (fun _ hc => Bson.noConfusion hc)
    (fun _ hc => Bson.noConfusion hc)

/-- C5: for every well-formed object identifier, the query-language
scalar encoding of the ObjectId variant is the plain string made of the
marker followed by its 24-hex form, and decoding that same string token
through the query-protocol input decoder reproduces the very same
ObjectId variant. -/
theorem c5_scalar_round_trip (o : ObjectId) (h : o.wf) :
    resolve (ID.ObjectId o) = ScalarValue.str ("$oid:" ++ o.to_hex) ∧
    from_input_value (InputValue.scalar (ScalarValue.str ("$oid:" ++ o.to_hex))) =
      some (ID.ObjectId o) := by
  refine ⟨rfl, ?_⟩
  simp [from_input_value, strStartsWith_oid_append, strDropChars_oid_append,
    with_string_to_hex o h]

/-- C5 witness: the round trip at a concrete object identifier. -/
theorem c5_witness :
    (⟨[0x50, 0x7f, 0x1f, 0x77, 0xbc, 0xf8, 0x6c, 0xd7, 0x99, 0x43, 0x90, 0x11]⟩ : ObjectId).wf ∧
    (resolve (ID.ObjectId ⟨[0x50, 0x7f, 0x1f, 0x77, 0xbc, 0xf8, 0x6c, 0xd7, 0x99, 0x43, 0x90, 0x11]⟩) =
        ScalarValue.str ("$oid:" ++ (⟨[0x50, 0x7f, 0x1f, 0x77, 0xbc, 0xf8, 0x6c, 0xd7, 0x99, 0x43, 0x90, 0x11]⟩ : ObjectId).to_hex) ∧
      from_input_value (InputValue.scalar (ScalarValue.str
          ("$oid:" ++ (⟨[0x50, 0x7f, 0x1f, 0x77, 0xbc, 0xf8, 0x6c, 0xd7, 0x99, 0x43, 0x90, 0x11]⟩ : ObjectId).to_hex))) =
        some (ID.ObjectId ⟨[0x50, 0x7f, 0x1f, 0x77, 0xbc, 0xf8, 0x6c, 0xd7, 0x99, 0x43, 0x90, 0x11]⟩)) :=
  ⟨by decide, c5_scalar_round_trip _ (by decide)⟩

/-- C6: the canonical string conversion renders the ObjectId variant as
its 24-character hex form with no marker, the String variant as itself,
and the I64 variant as decimal digits, and the From impl for String
agrees with ID::to_string on every identifier. -/
theorem c6_to_string_canonical :
    (∀ o, ID.to_string (ID.ObjectId o) = o.to_hex) ∧
    (∀ o, o.wf → (ID.to_string (ID.ObjectId o)).length = 24 ∧
      strStartsWith (ID.to_string (ID.ObjectId o)) "$oid:" = false) ∧
    (∀ s, ID.to_string (ID.String s) = s) ∧
    (∀ i, ID.to_string (ID.I64 i) = toString i) ∧
    (∀ x, idToString x = ID.to_string x) := by
  refine ⟨fun o => rfl, ?_, fun s => rfl, fun i => rfl, fun x => by cases x <;> rfl⟩
  intro o ho
  obtain ⟨hlen, hbytes⟩ := ho
  refine ⟨to_hex_length o hlen, ?_⟩
  show strStartsWith o.to_hex "$oid:" = false
  rcases hb : o.bytes with _ | ⟨b, t⟩
  · rw [hb] at hlen
    simp at hlen
  · have hb256 : b < 256 := hbytes b (by rw [hb]; exact List.mem_cons_self b t)
    have hd : ('$' == hexDigitChar (b / 16)) = false :=
      hexDigitChar_ne_dollar _ (by omega)
    unfold strStartsWith ObjectId.to_hex
    rw [hb]
    rw [show "$oid:".toList = ['$', 'o', 'i', 'd', ':'] from rfl]
    simp [List.map, List.flatten, List.isPrefixOf, hd]

/-- C6 witness: the length and no-marker clause at a concrete
well-formed object identifier. -/
theorem c6_witness :
    (⟨[0x50, 0x7f, 0x1f, 0x77, 0xbc, 0xf8, 0x6c, 0xd7, 0x99, 0x43, 0x90, 0x11]⟩ : ObjectId).wf ∧
    ((ID.to_string (ID.ObjectId ⟨[0x50, 0x7f, 0x1f, 0x77, 0xbc, 0xf8, 0x6c, 0xd7, 0x99, 0x43, 0x90, 0x11]⟩)).length = 24 ∧
      strStartsWith (ID.to_string (ID.ObjectId ⟨[0x50, 0x7f, 0x1f, 0x77, 0xbc, 0xf8, 0x6c, 0xd7, 0x99, 0x43, 0x90, 0x11]⟩)) "$oid:" = false) :=
  ⟨by decide, c6_to_string_canonical.2.1 _ (by decide)⟩

/-- C7: the generic structured serializer emits a single-entry map with
key $oid and the 24-character hex string for the ObjectId variant, the
bare string for the String variant, and the bare number for the I64
variant. -/
theorem c7_serialize_shape :
    (∀ o : ObjectId, serialize (ID.ObjectId o) = SerValue.map [("$oid", SerValue.str o.to_hex)]) ∧
    (∀ o : ObjectId, o.wf → (o.to_hex).length = 24) ∧
    (∀ s, serialize (ID.String s) = SerValue.str s) ∧
    (∀ i, serialize (ID.I64 i) = SerValue.int i) :=
  ⟨fun _ => rfl, fun o h => to_hex_length o h.1, fun _ => rfl, fun _ => rfl⟩

/-- C7 witness: the map shape and the hex length at a concrete
well-formed object identifier. -/
theorem c7_witness :
    serialize (ID.ObjectId ⟨[0x50, 0x7f, 0x1f, 0x77, 0xbc, 0xf8, 0x6c, 0xd7, 0x99, 0x43, 0x90, 0x11]⟩) =
      SerValue.map [("$oid", SerValue.str (⟨[0x50, 0x7f, 0x1f, 0x77, 0xbc, 0xf8, 0x6c, 0xd7, 0x99, 0x43, 0x90, 0x11]⟩ : ObjectId).to_hex)] ∧
    (⟨[0x50, 0x7f, 0x1f, 0x77, 0xbc, 0xf8, 0x6c, 0xd7, 0x99, 0x43, 0x90, 0x11]⟩ : ObjectId).wf ∧
    ((⟨[0x50, 0x7f, 0x1f, 0x77, 0xbc, 0xf8, 0x6c, 0xd7, 0x99, 0x43, 0x90, 0x11]⟩ : ObjectId).to_hex).length = 24 :=
  ⟨c7_serialize_shape.1 _, by decide, c7_serialize_shape.2.1 _ (by decide)⟩

/-- C8: the plain-text conversion From String always produces the
String variant verbatim and never disambiguates, even on a marker
string whose remainder is a valid object identifier, where the decode
path does produce the ObjectId variant from the same input. -/
theorem c8_from_string_always_text :
    (∀ s, stringToID s = ID.String s) ∧
    (∀ h o, ObjectId.with_string h = some o →
      stringToID ("$oid:" ++ h) = ID.String ("$oid:" ++ h) ∧
      visit_str ("$oid:" ++ h) = Except.ok (ID.ObjectId o)) := by
  refine ⟨fun _ => rfl, fun h o hp => ⟨rfl, ?_⟩⟩
  simp [visit_str, strStartsWith_oid_append, strDropChars_oid_append, hp]

/-- C8 witness: the contrast clause at a concrete valid hex string. -/
theorem c8_witness :
    ObjectId.with_string "507f1f77bcf86cd799439011" =
      some ⟨[0x50, 0x7f, 0x1f, 0x77, 0xbc, 0xf8, 0x6c, 0xd7, 0x99, 0x43, 0x90, 0x11]⟩ ∧
    (stringToID ("$oid:" ++ "507f1f77bcf86cd799439011") =
        ID.String ("$oid:" ++ "507f1f77bcf86cd799439011") ∧
      visit_str ("$oid:" ++ "507f1f77bcf86cd799439011") =
        Except.ok (ID.ObjectId ⟨[0x50, 0x7f, 0x1f, 0x77, 0xbc, 0xf8, 0x6c, 0xd7, 0x99, 0x43, 0x90, 0x11]⟩)) :=
  ⟨by decide, c8_from_string_always_text.2 _ _ (by decide)⟩

/-- C9: the serde u64 visitor accepts every value below 2 to the 64 and
wraps it into the I64 variant through the wrap-around cast: the payload
is congruent to the input modulo 2 to the 64, lies in the signed 64-bit
range, is negative exactly on inputs of 2 to the 63 and above, and is
the input itself below 2 to the 63. -/
theorem c9_visit_u64_wraps (v : Nat) (h : v < 2 ^ 64) :
    visit_u64 v = Except.ok (ID.I64 (i64_of_u64 v)) ∧
    (i64_of_u64 v) % 2 ^ 64 = (v : Int) % 2 ^ 64 ∧
    -(2 ^ 63) ≤ i64_of_u64 v ∧ i64_of_u64 v < 2 ^ 63 ∧
    (2 ^ 63 ≤ v → i64_of_u64 v < 0) ∧
    (v < 2 ^ 63 → i64_of_u64 v = (v : Int)) := by
  refine ⟨rfl, ?_⟩
  unfold i64_of_u64
  split <;> omega

/-- C9 witness: the largest unsigned 64-bit value decodes to the
payload minus one. -/
theorem c9_witness : visit_u64 (2 ^ 64 - 1) = Except.ok (ID.I64 (-1)) := by
  have h := c9_visit_u64_wraps (2 ^ 64 - 1) (by norm_num)
  rw [h.1]
  have h2 : i64_of_u64 (2 ^ 64 - 1) = -1 := by decide
  rw [h2]

/-- C10: the query-language scalar encoding of the I64 variant is the
numeric scalar produced by the wrap-around cast to signed 32 bits: the
emitted number is congruent to the payload modulo 2 to the 32, lies in
the signed 32-bit range, and equals the payload exactly when the
payload already lies in that range; values outside are silently
wrapped, never rejected. -/
theorem c10_resolve_i64_wraps (i : Int) (h : -(2 ^ 63) ≤ i ∧ i < 2 ^ 63) :
    resolve (ID.I64 i) = ScalarValue.int (i32_of_i64 i) ∧
    (i32_of_i64 i) % 2 ^ 32 = i % 2 ^ 32 ∧
    -(2 ^ 31) ≤ i32_of_i64 i ∧ i32_of_i64 i < 2 ^ 31 ∧
    (i32_of_i64 i = i ↔ -(2 ^ 31) ≤ i ∧ i < 2 ^ 31) := by
  refine ⟨rfl, ?_⟩
  unfold i32_of_i64
  omega

/-- C10 witness: the payload 2 to the 31 is wrapped to its negation by
the scalar encoding. -/
theorem c10_witness : resolve (ID.I64 (2 ^ 31)) = ScalarValue.int (-(2 ^ 31)) := by
  have h := c10_resolve_i64_wraps (2 ^ 31) (by norm_num)
  rw [h.1]
  have h2 : i32_of_i64 (2 ^ 31) = -(2 ^ 31) := by decide
  rw [h2]

end MongoId
